import Mathlib

/-!
Shallow embedding of `src/main.py`, a content-addressed string registry
(FastAPI endpoints over an in-memory dict `db`).  Python strings are
modelled as `List Char`, the store dict as an association list keyed by
the digest, and Python exceptions (`AttributeError`, `ValueError`,
`HTTPException(status, detail)`) as an error type returned through
`Except`.  Each definition transcribes one function of the source,
including its defects: a model never repairs the source except where a
clearly named `...Fixed` variant is introduced to exhibit a second,
otherwise shadowed, defect.
-/

namespace StringRegistry

/-- Python exceptions visible in `main.py`: an uncaught `AttributeError`,
an uncaught `ValueError`, and FastAPI's `HTTPException(status_code, detail)`. -/
inductive PyErr where
  | attributeError : PyErr
  | valueError : PyErr
  | http : Nat → String → PyErr
deriving DecidableEq, Repr

/-- Convert a Lean string literal to the `List Char` representation used
for Python strings throughout this embedding. -/
def toL (s : String) : List Char := s.toList

/-- Python whitespace characters recognised by `str.split()` (ASCII subset;
the source is only ever exercised on ASCII text). -/
def isPySpace (c : Char) : Bool :=
  c == ' ' || c == '\t' || c == '\n' || c == '\r' || c == '\x0b' || c == '\x0c'

/-- Accumulator-style worker for `pySplit`: `acc` holds the current token
reversed. -/
def pySplitAux : List Char → List Char → List (List Char)
  | [], acc => if acc.isEmpty then [] else [acc.reverse]
  | c :: t, acc =>
    if isPySpace c then
      if acc.isEmpty then pySplitAux t [] else acc.reverse :: pySplitAux t []
    else pySplitAux t (c :: acc)

/-- Python `s.split()` with no argument: split on runs of whitespace,
discarding empty tokens. -/
def pySplit (s : List Char) : List (List Char) := pySplitAux s []

/-- Python substring test `needle in hay` for strings. -/
def containsSub (needle : List Char) : List Char → Bool
  | [] => needle.isEmpty
  | c :: t => needle.isPrefixOf (c :: t) || containsSub needle t

/-- Models `hashlib.sha256(s.encode()).hexdigest()` (main.py line 23 and
line 75).  The digest is an external library function; the only properties
of it this program relies on are determinism and (per the spec, assumed)
collision freedom, so it is modelled as an injective deterministic
encoding of the raw character content into a number.  `0x110001` exceeds
every Unicode code point, making the positional encoding injective. -/
def sha256_hexdigest (s : List Char) : Nat :=
  s.foldl (fun acc c => acc * 1114113 + (c.toNat + 1)) 0

/-- The dict returned by `analyze_string` (main.py lines 29-36), field
names exactly as the source spells its keys (`unique_character`,
`character_frequency_map`). -/
structure Props where
  length : Nat
  is_palindrome : Bool
  unique_character : Nat
  word_count : Nat
  sha256_hash : Nat
  character_frequency_map : List (Char × Nat)
deriving DecidableEq, Repr

/-- A stored record (main.py lines 60-65). `created_at` is the ISO
timestamp string; its value never influences any operation modelled here. -/
structure Record where
  id : Nat
  value : List Char
  properties : Props
  created_at : List Char
deriving DecidableEq, Repr

/-- The module-level dict `db` (main.py line 10): content hash → record.
Association list with dict semantics; `values()` iterates in insertion
order. -/
def Store := List (Nat × Record)

/-- Python `db.get(k)`. -/
def dictGet (k : Nat) : Store → Option Record
  | [] => none
  | (k2, v) :: t => if k2 == k then some v else dictGet k t

/-- Python `del db[k]` (keys are unique in a dict). -/
def dictErase (k : Nat) (db : Store) : Store :=
  List.filter (fun kv => kv.fst != k) db

/-- Python `db.values()` in insertion order. -/
def storeValues (db : Store) : List Record := List.map (fun kv => kv.snd) db

/-- `analyze_string` (main.py lines 17-36), transcribed faithfully.  After
computing `lower`, `length`, `is_palindrome` and `unique_characters`, line
22 evaluates `s.splits()`; Python `str` has no method `splits` (the method
is `split`), so every call raises `AttributeError` before the hash, the
frequency loop or the return are reached. -/
def analyze_string (s : List Char) : Except PyErr Props :=
  let lower := s.map Char.toLower
  let _is_palindrome := lower == lower.reverse
  let _unique_characters := s.eraseDups.length
  Except.error PyErr.attributeError

/-- `analyze_string` with the single `splits` → `split` typo repaired,
introduced to exhibit the next defect in the source: the `return`
statement (lines 29-36) is indented inside the `for char in s` loop, so
the function returns during the first iteration and the frequency map
holds only the first character; on empty input the loop body never runs
and the function falls through, returning Python `None`. -/
def analyze_string_splitFixed (s : List Char) : Option Props :=
  let lower := s.map Char.toLower
  match s with
  | [] => none
  | c :: _ =>
    some { length := s.length
         , is_palindrome := lower == lower.reverse
         , unique_character := s.eraseDups.length
         , word_count := (pySplit s).length
         , sha256_hash := sha256_hexdigest s
         , character_frequency_map := [(c, 1)] }

/-- `create_string` (main.py lines 39-71).  The parameter is named
`inpute`, but the body reads `input.value` (lines 43, 47, 50, 62): `input`
resolves to the Python builtin function, which has no attribute `value`,
so every call raises `AttributeError` at line 43 before the store is read
or written.  (Even with that typo repaired, line 50 calls
`analyze_string`, which itself raises `AttributeError`; the duplicate
check at line 53 and the insertion at line 68 are unreachable.) -/
def create_string (_db : Store) (_inpute : List Char) : Except PyErr (Store × Record) :=
  Except.error PyErr.attributeError

/-- `find_strings_record` (main.py lines 74-76): hash the raw value and
look it up in `db`. -/
def find_strings_record (db : Store) (s : List Char) : Option Record :=
  dictGet (sha256_hexdigest s) db

/-- `get_string` (main.py lines 79-84). -/
def get_string (db : Store) (string_value : List Char) : Except PyErr Record :=
  match find_strings_record db string_value with
  | none => Except.error (PyErr.http 404 "String does not exist in the system")
  | some record => Except.ok record

/-- The optional query filters of `get_all_strings` (and the dict built by
`parse_natural_language`): each field absent (`none`) or present. -/
structure Filters where
  is_palindrome : Option Bool := none
  min_length : Option Int := none
  max_length : Option Int := none
  word_count : Option Int := none
  contains_character : Option (List Char) := none
deriving DecidableEq, Repr

/-- Python dict truthiness `not filters`: no key present. -/
def Filters.isEmpty (f : Filters) : Bool :=
  f.is_palindrome.isNone && f.min_length.isNone && f.max_length.isNone &&
  f.word_count.isNone && f.contains_character.isNone

/-- The per-record filter checks of `get_all_strings` (main.py lines
100-109): a record survives the chain of `continue` guards iff every
present filter is satisfied; `contains_character` is tested by substring
membership in the raw `record['value']` (line 108). -/
def passesDirect (is_palindrome : Option Bool) (min_length : Option Int)
    (max_length : Option Int) (word_count : Option Int)
    (contains_character : Option (List Char)) (record : Record) : Bool :=
  let props := record.properties
  (match is_palindrome with
   | some b => props.is_palindrome == b
   | none => true) &&
  (match min_length with
   | some v => !(decide ((props.length : Int) < v))
   | none => true) &&
  (match max_length with
   | some v => !(decide ((props.length : Int) > v))
   | none => true) &&
  (match word_count with
   | some v => (props.word_count : Int) == v
   | none => true) &&
  (match contains_character with
   | some c => containsSub c record.value
   | none => true)

/-- The per-record filter checks of `filter_by_natural_language` (main.py
lines 179-188): same chain of `continue` guards, keyed on the parsed
filters dict; `contains_character` is again substring membership in the
raw `record["value"]` (line 187). -/
def passesNL (filters : Filters) (record : Record) : Bool :=
  let prop := record.properties
  (match filters.is_palindrome with
   | some b => prop.is_palindrome == b
   | none => true) &&
  (match filters.min_length with
   | some v => !(decide ((prop.length : Int) < v))
   | none => true) &&
  (match filters.max_length with
   | some v => !(decide ((prop.length : Int) > v))
   | none => true) &&
  (match filters.word_count with
   | some v => (prop.word_count : Int) == v
   | none => true) &&
  (match filters.contains_character with
   | some c => containsSub c record.value
   | none => true)

/-- Response of `get_all_strings` (main.py lines 127-131). -/
structure ListResult where
  data : List Record
  count : Nat
  filter_applied : Filters
deriving DecidableEq, Repr

/-- The loop of `get_all_strings` (main.py lines 96-131), transcribed with
its indentation defect: `results.append`, the `filters_applied` build and
the `return` (lines 111-131) all sit inside the `for record in db.values()`
loop, so the function returns as soon as the first matching record is
appended — with `data` holding just that record and `count = 1` — and when
no record matches (in particular on an empty store) the loop ends and the
function falls through, returning Python `None`. -/
def gasLoop (is_palindrome : Option Bool) (min_length : Option Int)
    (max_length : Option Int) (word_count : Option Int)
    (contains_character : Option (List Char)) : List Record → Option ListResult
  | [] => none
  | record :: rest =>
    if passesDirect is_palindrome min_length max_length word_count contains_character record then
      some { data := [record]
           , count := 1
           , filter_applied :=
               { is_palindrome := is_palindrome
               , min_length := min_length
               , max_length := max_length
               , word_count := word_count
               , contains_character := contains_character } }
    else gasLoop is_palindrome min_length max_length word_count contains_character rest

/-- `get_all_strings` (main.py lines 87-131): iterate the stored records
applying the optional filters. -/
def get_all_strings (db : Store) (is_palindrome : Option Bool)
    (min_length : Option Int) (max_length : Option Int)
    (word_count : Option Int) (contains_character : Option (List Char)) :
    Option ListResult :=
  gasLoop is_palindrome min_length max_length word_count contains_character (storeValues db)

/-- Pattern rule 1 (main.py lines 139-140): `'single word'`/`'one word'`
→ `word_count = 1`. -/
def applyWordCount (lower : List Char) (f : Filters) : Filters :=
  if containsSub (toL "single word") lower || containsSub (toL "one word") lower then
    { f with word_count := some 1 }
  else f

/-- Pattern rule 2 (main.py lines 143-144): `'palindromic'`/`'palindrome'`
→ `is_palindrome = True`. -/
def applyPalindrome (lower : List Char) (f : Filters) : Filters :=
  if containsSub (toL "palindromic") lower || containsSub (toL "palindrome") lower then
    { f with is_palindrome := some true }
  else f

/-- Does `re.search(r'strings longer than (d+)', lower)` find a match?
The pattern as written contains no backslash, so `(d+)` matches one or
more occurrences of the literal letter `d`, not digits: the regex matches
iff the text `"strings longer than "` followed by at least one `d` occurs
in `lower`. -/
def hasLongerThanD (pat : List Char) : List Char → Bool
  | [] => false
  | c :: t =>
    (pat.isPrefixOf (c :: t) && ((c :: t).drop pat.length).headD 'x' == 'd') ||
      hasLongerThanD pat t

/-- Pattern rule 3 (main.py lines 147-151): guarded by the substring test
`'strings longer than' in lower`, then `re.search(r'strings longer than (d+)', lower)`.
When the regex does match, the captured group is a non-empty run of the
literal letter `d`, and `int(m.group(1))` (line 151) raises `ValueError`;
when it does not match, no filter is set. -/
def applyLongerThan (lower : List Char) (f : Filters) : Except PyErr Filters :=
  if containsSub (toL "strings longer than") lower then
    if hasLongerThanD (toL "strings longer than ") lower then
      Except.error PyErr.valueError
    else Except.ok f
  else Except.ok f

/-- Pattern rule 4 (main.py lines 154-158): guarded by
`'containing the letter' in lower`, then
`re.search(r'containing the letter(w)', lower)` — again no backslash, so
the regex matches iff the literal text `"containing the letterw"` occurs,
and the captured group is then the literal string `"w"`. -/
def applyContaining (lower : List Char) (f : Filters) : Filters :=
  if containsSub (toL "containing the letter") lower then
    if containsSub (toL "containing the letterw") lower then
      { f with contains_character := some (toL "w") }
    else f
  else f

/-- The pattern-matching phase of `parse_natural_language` (main.py lines
135-158), the four rules applied in source order to the lowercased query. -/
def patternPass (lower : List Char) : Except PyErr Filters :=
  match applyLongerThan lower (applyPalindrome lower (applyWordCount lower {})) with
  | Except.error e => Except.error e
  | Except.ok f3 => Except.ok (applyContaining lower f3)

/-- `parse_natural_language` (main.py lines 134-168): run the pattern
rules, raise 400 when no filter was set, raise 422 when both `min_length`
and `max_length` are set with `min_length > max_length`, otherwise return
the filters dict. -/
def parse_natural_language (query : List Char) : Except PyErr Filters :=
  match patternPass (query.map Char.toLower) with
  | Except.error e => Except.error e
  | Except.ok filters =>
    if Filters.isEmpty filters then
      Except.error (PyErr.http 400 "Unable to parse natural language query")
    else
      match filters.min_length, filters.max_length with
      | some mn, some mx =>
        if mn > mx then
          Except.error (PyErr.http 422 "Query parsed but resulted in conflicting filters")
        else Except.ok filters
      | _, _ => Except.ok filters

/-- The `interpreted_query` object of the natural-language response
(main.py lines 195-198). -/
structure InterpretedQuery where
  original : List Char
  parsed_filters : Filters
deriving DecidableEq, Repr

/-- Response of `filter_by_natural_language` (main.py lines 192-199). -/
structure NLResult where
  data : List Record
  count : Nat
  interpreted_query : InterpretedQuery
deriving DecidableEq, Repr

/-- `filter_by_natural_language` (main.py lines 172-199): parse first (an
exception propagates before the store is touched), then scan every stored
record — here the `return` correctly sits after the loop, so all matches
are collected. -/
def filter_by_natural_language (db : Store) (query : List Char) : Except PyErr NLResult :=
  match parse_natural_language query with
  | Except.error e => Except.error e
  | Except.ok filters =>
    let results := List.filter (fun record => passesNL filters record) (storeValues db)
    Except.ok { data := results
              , count := results.length
              , interpreted_query := { original := query, parsed_filters := filters } }

/-- `delete_string` (main.py lines 202-208): look up by hashed value, 404
when absent, otherwise remove the record from the store. -/
def delete_string (db : Store) (string_value : List Char) : Except PyErr Store :=
  match find_strings_record db string_value with
  | none => Except.error (PyErr.http 404 "String does not exist in the system")
  | some record => Except.ok (dictErase record.id db)

/-! Concrete records used by closed theorems.  They are built directly —
`create_string` can never build one, which is itself one of the defects
recorded below — but `get_all_strings`, `delete_string` and `get_string`
are total over any store contents, so evaluating them on hypothetical
store states is meaningful. -/

/-- Properties of the one-character value `"a"`, as the intended analyzer
would derive them. -/
def propsA : Props :=
  { length := 1, is_palindrome := true, unique_character := 1, word_count := 1
  , sha256_hash := sha256_hexdigest (toL "a")
  , character_frequency_map := [('a', 1)] }

/-- A stored record for the value `"a"`. -/
def recA : Record :=
  { id := sha256_hexdigest (toL "a"), value := toL "a", properties := propsA
  , created_at := toL "2026-01-01T00:00:00Z" }

/-- Properties of the one-character value `"b"`. -/
def propsB : Props :=
  { length := 1, is_palindrome := true, unique_character := 1, word_count := 1
  , sha256_hash := sha256_hexdigest (toL "b")
  , character_frequency_map := [('b', 1)] }

/-- A stored record for the value `"b"`. -/
def recB : Record :=
  { id := sha256_hexdigest (toL "b"), value := toL "b", properties := propsB
  , created_at := toL "2026-01-01T00:00:01Z" }

/-- A two-record store holding `"a"` then `"b"` in insertion order. -/
def dbAB : Store := [(recA.id, recA), (recB.id, recB)]

/-- Properties of the value `"level"` as the intended analyzer would
derive them. -/
def propsLevel : Props :=
  { length := 5, is_palindrome := true, unique_character := 3, word_count := 1
  , sha256_hash := sha256_hexdigest (toL "level")
  , character_frequency_map := [('l', 2), ('e', 2), ('v', 1)] }

/-- A stored record for the value `"level"`. -/
def recLevel : Record :=
  { id := sha256_hexdigest (toL "level"), value := toL "level", properties := propsLevel
  , created_at := toL "2026-01-01T00:00:02Z" }

/-! Helper lemmas about the pattern rules (shared by several theorems). -/

/-- Rule 1 never touches `max_length`. -/
theorem applyWordCount_max (lower : List Char) (f : Filters) :
    (applyWordCount lower f).max_length = f.max_length := by
  unfold applyWordCount
  split <;> rfl

/-- Rule 2 never touches `max_length`. -/
theorem applyPalindrome_max (lower : List Char) (f : Filters) :
    (applyPalindrome lower f).max_length = f.max_length := by
  unfold applyPalindrome
  split <;> rfl

/-- Rule 3, when it does not raise, never touches `max_length`. -/
theorem applyLongerThan_max (lower : List Char) (f g : Filters)
    (h : applyLongerThan lower f = Except.ok g) : g.max_length = f.max_length := by
  unfold applyLongerThan at h
  split at h
  · split at h
    · exact Except.noConfusion h
    · injection h with h2
      subst h2
      rfl
  · injection h with h2
    subst h2
    rfl

/-- Rule 3's only exception is the `ValueError` from `int("d…d")`. -/
theorem applyLongerThan_error (lower : List Char) (f : Filters) (e : PyErr)
    (h : applyLongerThan lower f = Except.error e) : e = PyErr.valueError := by
  unfold applyLongerThan at h
  split at h
  · split at h
    · injection h with h2
      exact h2.symm
    · exact Except.noConfusion h
  · exact Except.noConfusion h

/-- Rule 4 never touches `max_length`. -/
theorem applyContaining_max (lower : List Char) (f : Filters) :
    (applyContaining lower f).max_length = f.max_length := by
  unfold applyContaining
  split
  · split <;> rfl
  · rfl

/-- The pattern phase never sets `max_length`. -/
theorem patternPass_max_none (lower : List Char) (f : Filters)
    (h : patternPass lower = Except.ok f) : f.max_length = none := by
  unfold patternPass at h
  split at h
  · exact Except.noConfusion h
  · rename_i f3 heq
    injection h with h2
    subst h2
    rw [applyContaining_max, applyLongerThan_max lower _ f3 heq,
      applyPalindrome_max, applyWordCount_max]

/-- The pattern phase can only raise `ValueError`. -/
theorem patternPass_error (lower : List Char) (e : PyErr)
    (h : patternPass lower = Except.error e) : e = PyErr.valueError := by
  unfold patternPass at h
  split at h
  · rename_i e0 heq
    injection h with h2
    subst h2
    exact applyLongerThan_error lower _ _ heq
  · exact Except.noConfusion h

/-! The ten claims. -/

/-- C1.  Claimed: `list(predicate)` returns exactly the stored records
satisfying every present constraint, its `count` is the length of the
matches, and with every constraint absent it returns every stored record.
The code violates this: the `return` of `get_all_strings` sits inside the
scan loop, so on a two-record store with the all-absent predicate the call
returns only the first record with `count = 1` even though the second
record also passes every (absent) filter, and on an empty store it falls
off the loop and returns Python `None` instead of an empty result. -/
theorem get_all_strings_early_return :
    get_all_strings dbAB none none none none none =
      some { data := [recA], count := 1, filter_applied := {} } ∧
    passesDirect none none none none none recB = true ∧
    get_all_strings ([] : Store) none none none none none = none :=
  ⟨rfl, rfl, rfl⟩

/-- C2.  Claimed: after `create(T)` succeeds, `get(T)` returns a record
with `value = T` and `properties = analyze(T)`.  The code violates the
premise for every input: `create_string` raises `AttributeError` at line
43 (`input.value` on the Python builtin `input`; its parameter is named
`inpute`), and `analyze_string` itself raises `AttributeError` at line 22
(`s.splits()`), so no create ever succeeds and no record is ever stored. -/
theorem create_roundtrip_impossible :
    create_string ([] : Store) (toL "level") = Except.error PyErr.attributeError ∧
    analyze_string (toL "level") = Except.error PyErr.attributeError ∧
    get_string ([] : Store) (toL "level") =
      Except.error (PyErr.http 404 "String does not exist in the system") :=
  ⟨rfl, rfl, rfl⟩

/-- C3.  Claimed: a second `create(T)` after a successful one fails with
`DuplicateContent` (409) and leaves the store unchanged.  The code
violates this: the first `create(T)` already raises `AttributeError`, and
even on a store that does hold a record with `T`'s content hash the call
raises `AttributeError` at line 43 before the duplicate check at line 53,
never the 409. -/
theorem create_duplicate_never_409 :
    create_string ([] : Store) (toL "a") = Except.error PyErr.attributeError ∧
    create_string dbAB (toL "a") = Except.error PyErr.attributeError :=
  ⟨rfl, rfl⟩

/-- C4.  Claimed: `analyze(s).character_frequency` maps exactly the
distinct characters of `s` to their occurrence counts.  The code violates
this: `analyze_string` raises `AttributeError` at line 22 before the
frequency loop runs, and even with the `splits` typo repaired the `return`
sits inside the frequency loop, so on `"level"` the map would be
`{'l': 1}` rather than `{'l': 2, 'e': 2, 'v': 1}`. -/
theorem analyze_frequency_defects :
    analyze_string (toL "level") = Except.error PyErr.attributeError ∧
    ∃ p, analyze_string_splitFixed (toL "level") = some p ∧
      p.character_frequency_map = [('l', 1)] :=
  ⟨rfl, _, rfl, rfl⟩

/-- C5.  Claimed: `analyze(s).word_count` counts whitespace-delimited
tokens, and `analyze("one two  three").word_count = 3`.  The code violates
this: line 22 spells the method `splits`, so `analyze_string` raises
`AttributeError` for every input; the intended `split()` semantics
(modelled by `pySplit`) would indeed give 3, as would the model with only
that typo repaired. -/
theorem word_count_crashes :
    analyze_string (toL "one two  three") = Except.error PyErr.attributeError ∧
    (pySplit (toL "one two  three")).length = 3 ∧
    ∃ p, analyze_string_splitFixed (toL "one two  three") = some p ∧
      p.word_count = 3 :=
  ⟨rfl, rfl, _, rfl, rfl⟩

/-- C6.  Claimed: `translate("strings longer than N")` yields
`minLength = N + 1`, in particular `minLength = 4` for N = 3.  The code
violates this: the regex at line 149 is `strings longer than (d+)` with no
backslash, so `(d+)` matches literal letters `d`, never digits; on
`"strings longer than 3"` the regex finds no match, `min_length` is not
set, no other pattern fires, and the translator raises the 400
unparseable-query error instead. -/
theorem longer_than_is_unparseable :
    parse_natural_language (toL "strings longer than 3") =
      Except.error (PyErr.http 400 "Unable to parse natural language query") ∧
    hasLongerThanD (toL "strings longer than ") (toL "strings longer than 3") = false :=
  ⟨rfl, rfl⟩

/-- C7.  Confirmed: whenever the pattern phase completes with no
constraint set, `parse_natural_language` fails with the 400
unparseable-query error, and `filter_by_natural_language` propagates that
error for every store, without scanning it (its result does not depend on
the store); in particular for the query `"xyz"`. -/
theorem unparseable_rejected (q : List Char)
    (h : patternPass (q.map Char.toLower) = Except.ok {}) :
    parse_natural_language q =
      Except.error (PyErr.http 400 "Unable to parse natural language query") ∧
    ∀ db : Store, filter_by_natural_language db q =
      Except.error (PyErr.http 400 "Unable to parse natural language query") := by
  have hp : parse_natural_language q =
      Except.error (PyErr.http 400 "Unable to parse natural language query") := by
    unfold parse_natural_language
    rw [h]
    rfl
  refine ⟨hp, fun db => ?_⟩
  unfold filter_by_natural_language
  rw [hp]

/-- Witness for C7 at the concrete query `"xyz"` and a concrete store. -/
theorem unparseable_rejected_witness :
    parse_natural_language (toL "xyz") =
      Except.error (PyErr.http 400 "Unable to parse natural language query") ∧
    filter_by_natural_language dbAB (toL "xyz") =
      Except.error (PyErr.http 400 "Unable to parse natural language query") :=
  ⟨(unparseable_rejected (toL "xyz") rfl).1,
   (unparseable_rejected (toL "xyz") rfl).2 dbAB⟩

/-- C8.  Claimed: after `create(T)` then `delete(T)`, `get(T)` fails with
`NotFound`; and `delete` of an absent value fails with `NotFound` leaving
the store unchanged.  The code violates the first scenario's premise:
`create_string` raises `AttributeError` for every input, so the
create-then-delete sequence can never be set up.  The delete half itself
is sound: deleting a present record removes exactly it (shown on a
directly-built one-record store), a subsequent `get` yields 404, and
deleting from a store without the value yields 404 while `delete_string`
returns no modified store on that path. -/
theorem delete_paths :
    create_string ([] : Store) (toL "level") = Except.error PyErr.attributeError ∧
    delete_string [(recLevel.id, recLevel)] (toL "level") = Except.ok ([] : Store) ∧
    get_string ([] : Store) (toL "level") =
      Except.error (PyErr.http 404 "String does not exist in the system") ∧
    delete_string ([] : Store) (toL "level") =
      Except.error (PyErr.http 404 "String does not exist in the system") :=
  ⟨rfl, rfl, rfl, rfl⟩

/-- C9.  Confirmed: the per-record match decision of the direct filter
path (`get_all_strings`, lines 100-109) and of the natural-language path
(`filter_by_natural_language`, lines 179-188) agree on every record for
every set of constraints, and both test `contains_character` as substring
membership in the record's raw `value`. -/
theorem filter_paths_agree :
    (∀ (f : Filters) (r : Record),
      passesDirect f.is_palindrome f.min_length f.max_length f.word_count
        f.contains_character r = passesNL f r) ∧
    (∀ (c : List Char) (r : Record),
      passesNL { contains_character := some c } r = containsSub c r.value) :=
  ⟨fun _ _ => rfl, fun _ _ => rfl⟩

/-- C10.  Confirmed: the natural-language translator never sets
`max_length` (every successfully parsed filter set has `max_length =
none`), so the `ConflictingFilters` branch at lines 164-166 is
unreachable: no query ever fails with the 422 conflicting-filters error. -/
theorem nl_never_conflicting :
    (∀ (q : List Char) (f : Filters),
        parse_natural_language q = Except.ok f → f.max_length = none) ∧
    (∀ q : List Char,
        parse_natural_language q ≠
          Except.error (PyErr.http 422 "Query parsed but resulted in conflicting filters")) := by
  constructor
  · intro q f h
    unfold parse_natural_language at h
    split at h
    · exact Except.noConfusion h
    · rename_i f0 heq
      split at h
      · exact Except.noConfusion h
      · split at h
        · rename_i mn mx hmn hmx
          have hmax := patternPass_max_none _ _ heq
          rw [hmax] at hmx
          exact Option.noConfusion hmx
        · injection h with h2
          subst h2
          exact patternPass_max_none _ _ heq
  · intro q h
    unfold parse_natural_language at h
    split at h
    · rename_i e heq
      injection h with h2
      subst h2
      exact PyErr.noConfusion (patternPass_error _ _ heq)
    · rename_i f0 heq
      split at h
      · injection h with h2
        injection h2 with h3 h4
        exact absurd h3 (by decide)
      · split at h
        · rename_i mn mx hmn hmx
          have hmax := patternPass_max_none _ _ heq
          rw [hmax] at hmx
          exact Option.noConfusion hmx
        · exact Except.noConfusion h

/-- Witness for C10: a concrete query that parses successfully has
`max_length = none`, and the concrete query `"xyz"` does not fail with the
conflicting-filters error. -/
theorem nl_never_conflicting_witness :
    ({ is_palindrome := some true } : Filters).max_length = none ∧
    parse_natural_language (toL "xyz") ≠
      Except.error (PyErr.http 422 "Query parsed but resulted in conflicting filters") :=
  ⟨nl_never_conflicting.1 (toL "palindrome") { is_palindrome := some true } rfl,
   nl_never_conflicting.2 (toL "xyz")⟩

end StringRegistry
